import Mathlib

/-!
Verification of the logfire instrumentation layer.

This file gives a shallow embedding of the two interceptors of the
repository — the asyncio callback latency monitor (`logfire/_async.py`)
and the FastAPI request pipeline interceptor
(`logfire/integrations/_fastapi.py`) — and proves the specified
properties about them.

Python values are modelled as follows: ints are `Int`/`Nat`, floats are
exact rationals `ℚ`, exceptions are `Except`, `None`-able attributes are
`Option`.  Host functions that the interceptors wrap (the original
`Handle._run`, `solve_dependencies`, `run_endpoint_function`) are passed
in as explicit outcomes of type `Except ε α`, so that host-exception
propagation is visible in the embedding.  Reports sent to the telemetry
sink are collected in an explicit output list.
-/

/-! Source-location records (logfire._stack_info).  The extraction
helpers themselves live outside the two source files, so they are
modelled from the specification. -/

/-- A Python code object: the statically known function name and file. -/
structure CodeObject where
  co_qualname : String
  co_filename : String
  deriving DecidableEq

/-- A live Python frame: its code object and the current line number. -/
structure Frame where
  f_code : CodeObject
  f_lineno : Nat
  deriving DecidableEq

/-- The optional source-location keys of a callback descriptor:
`code.function`, `code.filepath`, `code.lineno`. -/
structure StackInfo where
  code_function : Option String := none
  code_filepath : Option String := none
  code_lineno : Option Nat := none
  deriving DecidableEq

/-- Modelled from the spec: `get_stack_info_from_frame` (from
`logfire._stack_info`, which is not part of the two source files)
extracts the function qualified name, the file, and the current line
from a live frame. -/
def get_stack_info_from_frame (f : Frame) : StackInfo :=
  { code_function := some f.f_code.co_qualname
    code_filepath := some f.f_code.co_filename
    code_lineno := some f.f_lineno }

/-- Modelled from the spec: `get_code_object_info` (from
`logfire._stack_info`, not part of the two source files) extracts the
function and file from a static code object, with no current line. -/
def get_code_object_info (c : CodeObject) : StackInfo :=
  { code_function := some c.co_qualname
    code_filepath := some c.co_filename
    code_lineno := none }

/-! Callback objects, as seen by `_callback_attributes`. -/

/-- The coroutine returned by `task.get_coro()`: either a genuine
coroutine with a live suspended frame (`cr_frame` is not `None`), a
genuine coroutine that has finished (`cr_frame` is `None`, only
`cr_code` remains), or some other object that is not a `CoroutineType`. -/
inductive Coro where
  | live (frame : Frame)
  | finished (code : CodeObject)
  | notCoroutine
  deriving DecidableEq

/-- An `asyncio.tasks.Task`: its name and its coroutine. -/
structure TaskObj where
  task_name : String
  task_coro : Coro
  deriving DecidableEq

/-- The attributes of a plain callable relevant to the resolver:
its optional `__code__`, its `__qualname__` and `__name__` (the empty
string stands for a missing or empty — in either case falsy — value),
and the behaviour of `repr` on it (`repr_ok = false` means `repr`
raises). -/
structure CallableData where
  has_code : Option CodeObject
  qualname : String
  name_attr : String
  repr_ok : Bool
  repr_val : String
  deriving DecidableEq

/-- A callable together with its `__wrapped__` chain (the chain that
`inspect.unwrap` follows). -/
inductive Callable where
  | base (d : CallableData)
  | wrapper (d : CallableData) (inner : Callable)
  deriving DecidableEq

/-- The own attributes of the callable (ignoring the wrapper chain). -/
def Callable.data : Callable → CallableData
  | .base d => d
  | .wrapper d _ => d

/-- `inspect.unwrap`: follows the whole `__wrapped__` chain to the
innermost callable. -/
def unwrap : Callable → Callable
  | .base d => .base d
  | .wrapper _ inner => unwrap inner

/-- Unwrapping a single layer only, as the specification words it
("unwrap one layer of wrapping"). -/
def unwrap_one : Callable → Callable
  | .base d => .base d
  | .wrapper _ inner => inner

/-- A callback held by an `asyncio.events.Handle`: either a bound method
whose `__self__` is an `asyncio.tasks.Task`, or any other callable. -/
inductive Callback where
  | taskMethod (task : TaskObj)
  | plain (c : Callable)
  deriving DecidableEq

/-- `repr(x)` as a fallible operation: raises exactly when
`repr_ok = false`. -/
def py_repr (d : CallableData) : Except Unit String :=
  if d.repr_ok then .ok d.repr_val else .error ()

/-- Modelled from the spec: `safe_repr` (from `logfire._utils`, not part
of the two source files) formats a value like `repr` and replaces any
exception raised during formatting with a placeholder string. -/
def safe_repr (d : CallableData) : String :=
  match py_repr d with
  | .ok s => s
  | .error _ => "<unrepresentable object>"

/-- The result type of `_callback_attributes`: an optional `name` key
plus the optional source-location keys. -/
structure _CallbackAttributes where
  name : Option String := none
  stack : StackInfo := {}
  deriving DecidableEq

/-- The `if function_name := result.get('code.function'): result['name'] += f' ({function_name})'`
step of the task branch. -/
def append_function_name (r : _CallbackAttributes) : _CallbackAttributes :=
  match r.stack.code_function with
  | some fn =>
      if fn = "" then r
      else { r with name := some ((r.name.getD "") ++ " (" ++ fn ++ ")") }
  | none => r

/-- Embedding of `_callback_attributes` from `logfire/_async.py`. -/
def _callback_attributes : Callback → _CallbackAttributes
  | .taskMethod task =>
      let result : _CallbackAttributes := { name := some ("task " ++ task.task_name) }
      match task.task_coro with
      | .notCoroutine => result
      | .live frame =>
          append_function_name { result with stack := get_stack_info_from_frame frame }
      | .finished code =>
          append_function_name { result with stack := get_code_object_info code }
  | .plain c0 =>
      let c := (unwrap c0).data
      let result : StackInfo :=
        match c.has_code with
        | some code => get_code_object_info code
        | none => {}
      let nm0 : String :=
        if c.qualname ≠ "" then c.qualname
        else if c.name_attr ≠ "" then c.name_attr
        else result.code_function.getD ""
      let nm : String := if nm0 ≠ "" then nm0 else safe_repr c
      { name := some ("callback " ++ nm), stack := result }

/-- Source location of a task-bound callback as the specification
describes it: from the live suspended frame, or from the static code
object when the coroutine has finished. -/
def task_source_location (t : TaskObj) : StackInfo :=
  match t.task_coro with
  | .live f => get_stack_info_from_frame f
  | .finished c => get_code_object_info c
  | .notCoroutine => {}

/-- The attribution algorithm exactly as the specification describes it,
parametrized by the unwrapping strategy used in the plain-callable
branch (the specification says one layer; the code unwraps the whole
chain). -/
def resolve_described (uw : Callable → Callable) : Callback → _CallbackAttributes
  | .taskMethod t =>
      let loc := task_source_location t
      let base := "task " ++ t.task_name
      let full : String :=
        match loc.code_function with
        | some fn => if fn = "" then base else base ++ " (" ++ fn ++ ")"
        | none => base
      (match t.task_coro with
       | .notCoroutine => { name := some base }
       | _ => { name := some full, stack := loc })
  | .plain c0 =>
      let c := (uw c0).data
      let loc : StackInfo :=
        match c.has_code with
        | some code => get_code_object_info code
        | none => {}
      let display : String :=
        if c.qualname ≠ "" then c.qualname
        else if c.name_attr ≠ "" then c.name_attr
        else if (loc.code_function.getD "") ≠ "" then loc.code_function.getD ""
        else safe_repr c
      { name := some ("callback " ++ display), stack := loc }

/-! The asyncio callback latency monitor (`log_slow_callbacks` in
`logfire/_async.py`). -/

def ONE_SECOND_IN_NANOSECONDS : Int := 1000000000

/-- Report levels used by the sink. -/
inductive LogLevel where
  | debug
  | warn
  | error
  | exception
  deriving DecidableEq

/-- A report sent by the latency monitor to the sink. -/
structure AsyncReport where
  level : LogLevel
  tags : List String
  message : String
  duration : ℚ
  attributes : _CallbackAttributes
  deriving DecidableEq

/-- An `asyncio.events.Handle`: the part the monitor reads is its
`_callback`. -/
structure Handle where
  _callback : Callback
  deriving DecidableEq

/-- Embedding of the `patched_run` closure from `log_slow_callbacks`.

`slow_duration_ns` is the closure's threshold (already normalized to
nanoseconds at activation).  `start_time` and `end_time` are the two
readings of the injected nanosecond monotonic timer.  `report_raises`
models an instrumentation-internal exception inside the `try` block
(descriptor resolution or sink reporting).  `original_result` is the
outcome of `original_run(self)`; an exception there propagates before
any duration is measured.  The second component collects the reports
sent to the sink. -/
def patched_run {ε α : Type} (slow_duration_ns : ℚ) (start_time end_time : Int)
    (report_raises : Bool) (self : Handle) (original_result : Except ε α) :
    Except ε α × List AsyncReport :=
  match original_result with
  | .error e => (.error e, [])
  | .ok v =>
      let duration : Int := end_time - start_time
      if (duration : ℚ) ≥ slow_duration_ns then
        if report_raises then (.ok v, [])
        else
          (.ok v,
           [{ level := .warn
              tags := ["slow-async"]
              message := "Async \x7bname\x7d blocked for \x7bduration:.3f\x7d seconds"
              duration := (duration : ℚ) / (ONE_SECOND_IN_NANOSECONDS : ℚ)
              attributes := _callback_attributes self._callback }])
      else (.ok v, [])

/-- The state of the `asyncio.events.Handle._run` slot: the pristine
entry point, or the monitor's patch with its normalized threshold. -/
inductive HandleRun where
  | original
  | patched (slow_duration_ns : ℚ)
  deriving DecidableEq

/-- Dispatch through the current `Handle._run` slot. -/
def run_handle {ε α : Type} (state : HandleRun) (start_time end_time : Int)
    (report_raises : Bool) (self : Handle) (original_result : Except ε α) :
    Except ε α × List AsyncReport :=
  match state with
  | .original => (original_result, [])
  | .patched ns => patched_run ns start_time end_time report_raises self original_result

/-- Embedding of `log_slow_callbacks`: captures the current entry point
as `original_run`, normalizes the threshold from seconds to nanoseconds,
and installs the patch.  Returns the new slot state and the captured
original reference that the returned `patch_context` holds. -/
def log_slow_callbacks (state : HandleRun) (slow_duration : ℚ) :
    HandleRun × HandleRun :=
  (HandleRun.patched (slow_duration * (ONE_SECOND_IN_NANOSECONDS : ℚ)), state)

/-- How a context-manager body finished. -/
inductive ExitKind where
  | normal
  | exceptional
  deriving DecidableEq

/-- Embedding of the exit of `patch_context`: the `finally` block
restores the captured original reference into the slot, whatever the
current slot holds and however the body exited. -/
def patch_context_exit (captured : HandleRun) (_current : HandleRun)
    (_ek : ExitKind) : HandleRun :=
  captured

/-! The FastAPI request pipeline interceptor
(`logfire/integrations/_fastapi.py`). -/

/-- Values appearing in the resolved-dependency mapping.  The first five
constructors are framework-internal injected types that the attribute
bundle filters out. -/
inductive PyVal where
  | request
  | websocketVal
  | backgroundTasks
  | securityScopes
  | response
  | user (s : String)
  deriving DecidableEq

/-- The `isinstance(v, (Request, WebSocket, BackgroundTasks, SecurityScopes, Response))`
filter used when building the `values` attribute. -/
def is_framework_type : PyVal → Bool
  | .request => true
  | .websocketVal => true
  | .backgroundTasks => true
  | .securityScopes => true
  | .response => true
  | .user _ => false

/-- Kind of a matched route: an `APIRoute` (with its `operation_id`) or
an `APIWebSocketRoute`. -/
inductive RouteKind where
  | api (operation_id : Option String)
  | websocketRoute
  deriving DecidableEq

/-- A matched route: `path`, `name` and kind. -/
structure Route where
  path : String
  name : String
  kind : RouteKind
  deriving DecidableEq

/-- A starlette HTTP `Request`: the app it belongs to (by identity),
its URL, method, and the optional `scope['route']`. -/
structure HttpRequest where
  app_id : Nat
  url : String
  method : String
  scope_route : Option Route
  deriving DecidableEq

/-- A starlette `WebSocket` connection. -/
structure WsRequest where
  app_id : Nat
  url : String
  scope_route : Option Route
  deriving DecidableEq

/-- The `request` argument of `solve_dependencies`: an HTTP request or a
websocket. -/
inductive Req where
  | http (r : HttpRequest)
  | websocket (w : WsRequest)
  deriving DecidableEq

def Req.app_id : Req → Nat
  | .http r => r.app_id
  | .websocket w => w.app_id

def Req.url : Req → String
  | .http r => r.url
  | .websocket w => w.url

def Req.scope_route : Req → Option Route
  | .http r => r.scope_route
  | .websocket w => w.scope_route

/-- The resolved-values mapping `result[0]`: either a plain dict, or the
`_InstrumentedValues` subclass (a dict copy carrying a back-reference to
the originating request). -/
inductive ValuesDict where
  | plain (entries : List (String × PyVal))
  | instrumented (entries : List (String × PyVal)) (request : HttpRequest)
  deriving DecidableEq

/-- The dict contents, for either form. -/
def ValuesDict.entries : ValuesDict → List (String × PyVal)
  | .plain es => es
  | .instrumented es _ => es

/-- The result tuple of `solve_dependencies`: the values mapping, the
validation errors, and the remaining components carried through
untouched. -/
structure SolveResult where
  values : ValuesDict
  errors : List String
  rest : List String
  deriving DecidableEq

/-- Values stored in an attribute bundle. -/
inductive AttrVal where
  | str (s : String)
  | optStr (s : Option String)
  | valuesMap (entries : List (String × PyVal))
  | errorsList (es : List String)
  deriving DecidableEq

/-- Python truthiness of an attribute value. -/
def AttrVal.py_truthy : AttrVal → Bool
  | .str s => s ≠ ""
  | .optStr s => match s with | some t => t ≠ "" | none => false
  | .valuesMap es => es ≠ []
  | .errorsList es => es ≠ []

/-- Dict update on an attribute bundle (association list, first key
occurrence wins). -/
def set_attr : List (String × AttrVal) → String → AttrVal → List (String × AttrVal)
  | [], k, v => [(k, v)]
  | kv :: rest, k, v =>
      if kv.1 = k then (k, v) :: rest else kv :: set_attr rest k v

/-- Dict lookup on an attribute bundle. -/
def get_attr (a : List (String × AttrVal)) (k : String) : Option AttrVal :=
  (a.find? (fun kv => kv.1 = k)).map (fun kv => kv.2)

/-- A report sent by the request pipeline interceptor to the sink
(which is `logfire_instance`, tagged `fastapi` at activation). -/
structure FReport where
  level : LogLevel
  tags : List String
  message : String
  attributes : Option (List (String × AttrVal))
  deriving DecidableEq

/-- The diagnostic emitted by the `except` handler of
`patched_solve_dependencies`. -/
def exception_report : FReport :=
  { level := .exception
    tags := ["fastapi"]
    message := "Error logging FastAPI arguments"
    attributes := none }

/-- The closure state captured by one `instrument_fastapi` call: the
instrumented app, the exclusion predicate, the user-supplied attribute
mapper, and fault switches modelling instrumentation-internal
exceptions (`mapper_raises`: the mapper call raises; `log_raises`: the
`logfire_instance.log` call raises). -/
structure InstrumentCfg where
  app_id : Nat
  excluded : String → Bool
  mapper : Req → List (String × AttrVal) → Option (List (String × AttrVal))
  mapper_raises : Bool
  log_raises : Bool

/-- Embedding of the `instrumenting_request` closure: the activation
flag, app identity, and URL exclusion checks. -/
def instrumenting_request (cfg : InstrumentCfg) (instrumenting : Bool)
    (req : Req) : Bool :=
  instrumenting && req.app_id == cfg.app_id && !(cfg.excluded req.url)

/-- The initial attribute bundle built by `patched_solve_dependencies`:
a shallow copy of the resolved values with framework-internal injected
types filtered out, and a copy of the validation errors. -/
def initial_attributes (result : SolveResult) : List (String × AttrVal) :=
  [("values",
    AttrVal.valuesMap (result.values.entries.filter (fun kv => !(is_framework_type kv.2)))),
   ("errors", AttrVal.errorsList result.errors)]

/-- Report level chosen from the (possibly mapper-modified) bundle:
`error` if `attributes.get('errors')` is truthy, else `debug`. -/
def report_level (attributes1 : List (String × AttrVal)) : LogLevel :=
  match get_attr attributes1 "errors" with
  | some v => if v.py_truthy then LogLevel.error else LogLevel.debug
  | none => LogLevel.debug

/-- The attributes injected after the mapper has run: the HTTP method
for HTTP requests, and route path, route name and (for an `APIRoute`)
the operation id when `scope.get('route')` is present. -/
def inject_request_attributes (req : Req)
    (attributes1 : List (String × AttrVal)) : List (String × AttrVal) :=
  let attributes2 :=
    match req with
    | .http r => set_attr attributes1 "http.method" (AttrVal.str r.method)
    | .websocket _ => attributes1
  match req.scope_route with
  | none => attributes2
  | some route =>
      let a := set_attr (set_attr attributes2 "http.route" (AttrVal.str route.path))
        "fastapi.route.name" (AttrVal.str route.name)
      match route.kind with
      | RouteKind.api opid => set_attr a "fastapi.route.operation_id" (AttrVal.optStr opid)
      | RouteKind.websocketRoute => a

/-- The body of `patched_solve_dependencies` after the original
resolution already succeeded with `result`: the `try` block with its
early returns, and the `except` handler emitting the diagnostic.
Returns the result handed back to the framework and the reports sent to
the sink. -/
def patched_solve_dependencies_body (cfg : InstrumentCfg) (instrumenting : Bool)
    (req : Req) (result : SolveResult) : SolveResult × List FReport :=
  if !(instrumenting_request cfg instrumenting req) then (result, [])
  else
    let attributes := initial_attributes result
    let result1 : SolveResult :=
      match req with
      | .http r => { result with values := ValuesDict.instrumented result.values.entries r }
      | .websocket _ => result
    if cfg.mapper_raises then (result1, [exception_report])
    else
      match cfg.mapper req attributes with
      | none => (result1, [])
      | some attributes1 =>
          let level := report_level attributes1
          let attributes3 := inject_request_attributes req attributes1
          if cfg.log_raises then (result1, [exception_report])
          else
            (result1,
             [{ level := level
                tags := ["fastapi"]
                message := "FastAPI arguments"
                attributes := some attributes3 }])

/-- Embedding of `patched_solve_dependencies`: the call to the original
`solve_dependencies` happens first and outside the `try` block, so a
host exception propagates unchanged; otherwise the body runs. -/
def patched_solve_dependencies {ε : Type} (cfg : InstrumentCfg)
    (instrumenting : Bool) (req : Req)
    (original_result : Except ε SolveResult) :
    Except ε (SolveResult × List FReport) :=
  match original_result with
  | .error e => .error e
  | .ok result => .ok (patched_solve_dependencies_body cfg instrumenting req result)

/-- A span as opened by `logfire.span` in `patched_run_endpoint_function`:
the message template and the two template fields. -/
structure SpanRecord where
  template : String
  method : String
  route : String
  deriving DecidableEq

/-- Span lifecycle events observed by the sink. -/
inductive SpanEvent where
  | opened (s : SpanRecord)
  | closed (s : SpanRecord)
  deriving DecidableEq

/-- The template of the endpoint span. -/
def endpoint_span_template : String := "\x7bmethod\x7d \x7broute\x7d endpoint function"

/-- Embedding of `patched_run_endpoint_function`.  `values` is the
resolved-values mapping handed to the stage; `original_result` is the
outcome of the original invocation logic.  The result is `none` when
the stage itself raises (`request.scope['route']` is a plain subscript,
so a missing route raises `KeyError` before the endpoint is invoked);
otherwise it is the passed-through outcome together with the span
events, the span being closed by the `with` block on success and on
exception alike. -/
def patched_run_endpoint_function {ε α : Type} (app_id : Nat)
    (values : ValuesDict) (original_result : Except ε α) :
    Option (Except ε α × List SpanEvent) :=
  match values with
  | .instrumented _ req =>
      if req.app_id == app_id then
        match req.scope_route with
        | none => none
        | some route =>
            let sp : SpanRecord :=
              { template := endpoint_span_template
                method := req.method
                route := route.path }
            some (original_result, [SpanEvent.opened sp, SpanEvent.closed sp])
      else some (original_result, [])
  | .plain _ => some (original_result, [])

/-! Module-level patching state of `instrument_fastapi`.  Each call
assigns fresh closures over the previously installed functions into
`fastapi.routing.solve_dependencies` and
`fastapi.routing.run_endpoint_function`, so the patches stack; each
call has its own closure-local `instrumenting` flag. -/

/-- One installed patch layer: its closure state and its own
`instrumenting` flag. -/
structure PatchLayer where
  cfg : InstrumentCfg
  instrumenting : Bool

/-- Module state: the stack of installed patch layers, the head being
the currently installed (outermost) function; `[]` is the pristine
module. -/
structure ModuleState where
  layers : List PatchLayer

/-- Embedding of the patching effect of one `instrument_fastapi` call:
captures the previously installed functions as the originals of a new
layer whose flag starts `true`.  Returns the new state and a handle
(the depth of this layer, counted from the bottom) identifying the
closure whose flag the returned context manager will clear. -/
def instrument_fastapi (st : ModuleState) (cfg : InstrumentCfg) :
    ModuleState × Nat :=
  ({ layers := { cfg := cfg, instrumenting := true } :: st.layers },
   st.layers.length)

/-- Clear the `instrumenting` flag of the layer with the given
bottom-counted depth. -/
def clear_flag : List PatchLayer → Nat → List PatchLayer
  | [], _ => []
  | l :: rest, handle =>
      if rest.length = handle then { l with instrumenting := false } :: rest
      else l :: clear_flag rest handle

/-- Embedding of the exit of `uninstrument_context`: sets that
activation's closure-local flag to `false`; the installed patches stay
in place. -/
def uninstrument_exit (st : ModuleState) (handle : Nat) : ModuleState :=
  { layers := clear_flag st.layers handle }

/-- Run the installed (stacked) `solve_dependencies` chain on a request:
each layer first calls through to the functions it captured, then runs
its own body on the inner result. -/
def run_solve_stack : List PatchLayer → Req → SolveResult →
    SolveResult × List FReport
  | [], _, base => (base, [])
  | l :: rest, req, base =>
      let inner := run_solve_stack rest req base
      let outer := patched_solve_dependencies_body l.cfg l.instrumenting req inner.1
      (outer.1, inner.2 ++ outer.2)

/-! Concrete sample objects used by the witnesses. -/

/-- A concrete callable for the sample handle. -/
def sampleCallable : CallableData :=
  { has_code := none, qualname := "f", name_attr := "", repr_ok := true, repr_val := "<f>" }

/-- A concrete handle whose callback is a plain callable. -/
def sampleHandle : Handle := { _callback := Callback.plain (Callable.base sampleCallable) }

/-- The identity attribute mapper (the default mapper keeps the bundle). -/
def id_mapper : Req → List (String × AttrVal) → Option (List (String × AttrVal)) :=
  fun _ a => some a

/-- A mapper that always opts out. -/
def none_mapper : Req → List (String × AttrVal) → Option (List (String × AttrVal)) :=
  fun _ _ => none

/-- A fault-free closure configuration for app 1 with the identity mapper. -/
def sampleCfg : InstrumentCfg :=
  { app_id := 1, excluded := fun _ => false, mapper := id_mapper,
    mapper_raises := false, log_raises := false }

/-- A configuration whose mapper call raises. -/
def faultCfg : InstrumentCfg :=
  { app_id := 1, excluded := fun _ => false, mapper := id_mapper,
    mapper_raises := true, log_raises := false }

/-- A configuration whose sink `log` call raises. -/
def logFaultCfg : InstrumentCfg :=
  { app_id := 1, excluded := fun _ => false, mapper := id_mapper,
    mapper_raises := false, log_raises := true }

/-- A configuration for app 1 whose mapper always opts out. -/
def optoutCfg : InstrumentCfg :=
  { app_id := 1, excluded := fun _ => false, mapper := none_mapper,
    mapper_raises := false, log_raises := false }

/-- A concrete HTTP request of app 1 with a matched `APIRoute`. -/
def sampleHttpReq : HttpRequest :=
  { app_id := 1, url := "http://testserver/items", method := "GET",
    scope_route := some { path := "/items", name := "items", kind := RouteKind.api none } }

/-- The matched route of `sampleHttpReq`. -/
def sampleRoute : Route := { path := "/items", name := "items", kind := RouteKind.api none }

/-- A concrete HTTP request of app 1 with no matched route in its scope. -/
def routeless_request : HttpRequest :=
  { app_id := 1, url := "http://testserver/x", method := "GET", scope_route := none }

/-- A concrete resolution result with one user value and one
framework-injected value. -/
def sampleResult : SolveResult :=
  { values := ValuesDict.plain [("x", PyVal.user "1"), ("bg", PyVal.backgroundTasks)],
    errors := [], rest := ["cache"] }

/-- A concrete resolution result with a validation error. -/
def error_result : SolveResult :=
  { values := ValuesDict.plain [("item_id", PyVal.user "abc")],
    errors := ["value is not a valid integer"], rest := [] }

/-- A callable with no identifiers whose `repr` raises. -/
def bad_repr_callable : CallableData :=
  { has_code := none, qualname := "", name_attr := "", repr_ok := false, repr_val := "" }

/-- A callable wrapped twice: the chain outer → mid → inner, with
distinct qualified names. -/
def doubly_wrapped : Callback :=
  Callback.plain (Callable.wrapper
    { has_code := none, qualname := "outer", name_attr := "", repr_ok := true, repr_val := "<o>" }
    (Callable.wrapper
      { has_code := none, qualname := "mid", name_attr := "", repr_ok := true, repr_val := "<m>" }
      (Callable.base
        { has_code := none, qualname := "inner", name_attr := "", repr_ok := true, repr_val := "<i>" })))

/-- The span record opened by the endpoint-invocation stage. -/
def endpoint_span (m rt : String) : SpanRecord :=
  { template := endpoint_span_template, method := m, route := rt }

/-! Helper lemmas shared by the claim theorems. -/

/-- Whatever branch the dependency-stage body takes, the values entries,
the errors, and the remaining tuple components it hands back equal those
of the original resolution result. -/
theorem solve_body_preserves (cfg : InstrumentCfg) (flag : Bool) (req : Req)
    (result : SolveResult) :
    (patched_solve_dependencies_body cfg flag req result).1.values.entries
      = result.values.entries ∧
    (patched_solve_dependencies_body cfg flag req result).1.errors = result.errors ∧
    (patched_solve_dependencies_body cfg flag req result).1.rest = result.rest := by
  unfold patched_solve_dependencies_body
  split
  · exact ⟨rfl, rfl, rfl⟩
  · cases req with
    | http r =>
        dsimp only
        split
        · exact ⟨rfl, rfl, rfl⟩
        · cases hmv : cfg.mapper (Req.http r) (initial_attributes result) with
          | none => cases result with
            | mk v e rest => cases v <;> exact ⟨rfl, rfl, rfl⟩
          | some a1 =>
              dsimp only
              split <;> cases result with
              | mk v e rest => cases v <;> exact ⟨rfl, rfl, rfl⟩
    | websocket w =>
        dsimp only
        split
        · exact ⟨rfl, rfl, rfl⟩
        · cases hmv : cfg.mapper (Req.websocket w) (initial_attributes result) with
          | none => exact ⟨rfl, rfl, rfl⟩
          | some a1 =>
              dsimp only
              split <;> exact ⟨rfl, rfl, rfl⟩

/-- When the `instrumenting_request` check fails, the dependency-stage
body returns the original result object with no reports. -/
theorem solve_body_skip (cfg : InstrumentCfg) (flag : Bool) (req : Req)
    (result : SolveResult) (h : instrumenting_request cfg flag req = false) :
    patched_solve_dependencies_body cfg flag req result = (result, []) := by
  unfold patched_solve_dependencies_body
  simp [h]

/-- Lookup in a non-empty attribute bundle. -/
theorem get_attr_cons (kv : String × AttrVal) (l : List (String × AttrVal))
    (k : String) :
    get_attr (kv :: l) k = if kv.1 = k then some kv.2 else get_attr l k := by
  by_cases h : kv.1 = k <;> simp [get_attr, List.find?_cons, h]

/-- Updating a key then reading it gives the new value. -/
theorem get_set_attr_same (a : List (String × AttrVal)) (k : String) (v : AttrVal) :
    get_attr (set_attr a k v) k = some v := by
  induction a with
  | nil => simp [set_attr, get_attr]
  | cons kv rest ih =>
      by_cases h : kv.1 = k
      · simp [set_attr, h, get_attr_cons]
      · simp [set_attr, h, get_attr_cons, ih]

/-- Updating a key leaves every other key unchanged. -/
theorem get_set_attr_other (a : List (String × AttrVal)) (k k2 : String)
    (v : AttrVal) (h : k2 ≠ k) :
    get_attr (set_attr a k v) k2 = get_attr a k2 := by
  induction a with
  | nil => simp [set_attr, get_attr_cons, get_attr, Ne.symm h]
  | cons kv rest ih =>
      by_cases hk : kv.1 = k
      · subst hk
        simp [set_attr, get_attr_cons, Ne.symm h]
      · simp [set_attr, hk, get_attr_cons, ih]

/-- The post-mapper injection sets `http.method` for every HTTP request,
whether or not a route was matched. -/
theorem inject_get_method (r : HttpRequest) (a1 : List (String × AttrVal)) :
    get_attr (inject_request_attributes (Req.http r) a1) "http.method"
      = some (AttrVal.str r.method) := by
  unfold inject_request_attributes
  simp only [Req.scope_route]
  cases hr : r.scope_route with
  | none =>
      dsimp only
      exact get_set_attr_same _ _ _
  | some route =>
      dsimp only
      cases hk : route.kind with
      | api opid =>
          dsimp only
          rw [get_set_attr_other _ _ _ _ (by decide),
              get_set_attr_other _ _ _ _ (by decide),
              get_set_attr_other _ _ _ _ (by decide)]
          exact get_set_attr_same _ _ _
      | websocketRoute =>
          dsimp only
          rw [get_set_attr_other _ _ _ _ (by decide),
              get_set_attr_other _ _ _ _ (by decide)]
          exact get_set_attr_same _ _ _

/-- With a matched route, the injection sets the route path, the route
name, and (for an `APIRoute`) the operation id. -/
theorem inject_get_route (req : Req) (route : Route) (a1 : List (String × AttrVal))
    (h : req.scope_route = some route) :
    get_attr (inject_request_attributes req a1) "http.route"
      = some (AttrVal.str route.path) ∧
    get_attr (inject_request_attributes req a1) "fastapi.route.name"
      = some (AttrVal.str route.name) ∧
    (∀ opid, route.kind = RouteKind.api opid →
      get_attr (inject_request_attributes req a1) "fastapi.route.operation_id"
        = some (AttrVal.optStr opid)) := by
  unfold inject_request_attributes
  rw [h]
  dsimp only
  cases hk : route.kind with
  | api opid =>
      dsimp only
      refine ⟨?_, ?_, ?_⟩
      · rw [get_set_attr_other _ _ _ _ (by decide),
            get_set_attr_other _ _ _ _ (by decide)]
        exact get_set_attr_same _ _ _
      · rw [get_set_attr_other _ _ _ _ (by decide)]
        exact get_set_attr_same _ _ _
      · intro opid2 hk2
        cases hk2
        exact get_set_attr_same _ _ _
  | websocketRoute =>
      dsimp only
      refine ⟨?_, ?_, ?_⟩
      · rw [get_set_attr_other _ _ _ _ (by decide)]
        exact get_set_attr_same _ _ _
      · exact get_set_attr_same _ _ _
      · intro opid2 hk2
        cases hk2

/-- With no matched route, the injection touches no key other than
`http.method`. -/
theorem inject_none (req : Req) (a1 : List (String × AttrVal))
    (h : req.scope_route = none) (k : String) (hk : k ≠ "http.method") :
    get_attr (inject_request_attributes req a1) k = get_attr a1 k := by
  unfold inject_request_attributes
  rw [h]
  dsimp only
  cases req with
  | http r => exact get_set_attr_other _ _ _ _ hk
  | websocket w => rfl

/-- The resolver always produces a name, and the name is non-empty. -/
theorem callback_name_nonempty (cb : Callback) :
    ((_callback_attributes cb).name).isSome = true ∧
    0 < (((_callback_attributes cb).name).getD "").length := by
  have h5 : "task ".length = 5 := by decide
  have h9 : "callback ".length = 9 := by decide
  cases cb with
  | taskMethod t =>
      cases ht : t.task_coro with
      | notCoroutine =>
          simp only [_callback_attributes, ht]
          refine ⟨rfl, ?_⟩
          simp only [Option.getD_some, String.length_append]
          omega
      | live frame =>
          simp only [_callback_attributes, ht, append_function_name,
            get_stack_info_from_frame]
          split <;> refine ⟨rfl, ?_⟩ <;>
            simp only [Option.getD_some, String.length_append] <;> omega
      | finished code =>
          simp only [_callback_attributes, ht, append_function_name,
            get_code_object_info]
          split <;> refine ⟨rfl, ?_⟩ <;>
            simp only [Option.getD_some, String.length_append] <;> omega
  | plain c =>
      simp only [_callback_attributes]
      refine ⟨rfl, ?_⟩
      simp only [Option.getD_some, String.length_append]
      omega

/-! Claim theorems. -/

/-- C1: exceptions raised by the original wrapped host logic propagate
unchanged through both interceptors, and no instrumentation-internal
failure alters the functional outcome: the latency-monitor path swallows
any such exception and still returns the original return value, while
the request-pipeline dependency stage keeps the values entries, errors
and remaining components of the resolution result intact and reports the
failure as an `Error logging FastAPI arguments` diagnostic, whether the
mapper call or the sink `log` call raised. -/
theorem C1_errors_transparent {ε α : Type} (slow_duration_ns : ℚ)
    (start_time end_time : Int) (report_raises : Bool) (self : Handle)
    (e : ε) (v : α) (cfg : InstrumentCfg) (flag : Bool) (req : Req)
    (result : SolveResult) (e2 : ε) :
    patched_run slow_duration_ns start_time end_time report_raises self
      (Except.error e : Except ε α) = (Except.error e, []) ∧
    patched_solve_dependencies cfg flag req (Except.error e2 : Except ε SolveResult)
      = Except.error e2 ∧
    (patched_run slow_duration_ns start_time end_time report_raises self
      (Except.ok v : Except ε α)).1 = Except.ok v ∧
    (report_raises = true →
      (patched_run slow_duration_ns start_time end_time report_raises self
        (Except.ok v : Except ε α)).2 = []) ∧
    ((patched_solve_dependencies_body cfg flag req result).1.values.entries
        = result.values.entries ∧
     (patched_solve_dependencies_body cfg flag req result).1.errors = result.errors ∧
     (patched_solve_dependencies_body cfg flag req result).1.rest = result.rest) ∧
    (instrumenting_request cfg flag req = true → cfg.mapper_raises = true →
      (patched_solve_dependencies_body cfg flag req result).2 = [exception_report]) ∧
    (∀ attributes1, instrumenting_request cfg flag req = true →
      cfg.mapper_raises = false → cfg.log_raises = true →
      cfg.mapper req (initial_attributes result) = some attributes1 →
      (patched_solve_dependencies_body cfg flag req result).2 = [exception_report]) := by
  refine ⟨rfl, rfl, ?_, ?_, solve_body_preserves cfg flag req result, ?_, ?_⟩
  · unfold patched_run
    dsimp only
    split <;> [skip; rfl]
    split <;> rfl
  · intro hr
    unfold patched_run
    dsimp only
    split <;> simp [hr]
  · intro hi hm
    unfold patched_solve_dependencies_body
    simp [hi, hm]
  · intro a1 hi hm hl hmap
    unfold patched_solve_dependencies_body
    simp [hi, hm, hl, hmap]

/-- Witness for C1 at concrete inputs: a raising reporter still yields
the original return value with no report, and a raising mapper or a
raising sink call each yield exactly the diagnostic report. -/
theorem C1_errors_transparent_witness :
    (patched_run (5 : ℚ) 0 10 true sampleHandle
      (Except.ok 7 : Except String Nat)).2 = [] ∧
    (patched_solve_dependencies_body faultCfg true (Req.http sampleHttpReq)
      sampleResult).2 = [exception_report] ∧
    (patched_solve_dependencies_body logFaultCfg true (Req.http sampleHttpReq)
      sampleResult).2 = [exception_report] := by
  refine ⟨?_, ?_, ?_⟩
  · exact (C1_errors_transparent 5 0 10 true sampleHandle "e" 7 sampleCfg true
      (Req.http sampleHttpReq) sampleResult "e").2.2.2.1 rfl
  · exact (C1_errors_transparent 5 0 10 true sampleHandle "e" 7 faultCfg true
      (Req.http sampleHttpReq) sampleResult "e").2.2.2.2.2.1 rfl rfl
  · exact (C1_errors_transparent 5 0 10 true sampleHandle "e" 7 logFaultCfg true
      (Req.http sampleHttpReq) sampleResult "e").2.2.2.2.2.2
      (initial_attributes sampleResult) rfl rfl rfl rfl

/-- C2: with the monitor activated at a threshold given in seconds
(normalized to nanoseconds at activation), a completed callback
invocation emits a report if and only if the elapsed nanoseconds are at
least the normalized threshold, and in that case it emits exactly one
warning-level report with the fixed message template, tagged
`slow-async`, whose duration is the elapsed nanoseconds divided by one
second in nanoseconds. -/
theorem C2_report_iff_threshold {α : Type} (slow_duration : ℚ)
    (start_time end_time : Int) (self : Handle) (v : α) :
    ((run_handle ((log_slow_callbacks HandleRun.original slow_duration).1)
        start_time end_time false self (Except.ok v : Except Unit α)).2 ≠ [] ↔
      ((end_time - start_time : Int) : ℚ) ≥
        slow_duration * (ONE_SECOND_IN_NANOSECONDS : ℚ)) ∧
    (((end_time - start_time : Int) : ℚ) ≥
        slow_duration * (ONE_SECOND_IN_NANOSECONDS : ℚ) →
      (run_handle ((log_slow_callbacks HandleRun.original slow_duration).1)
          start_time end_time false self (Except.ok v : Except Unit α)).2 =
        [{ level := LogLevel.warn
           tags := ["slow-async"]
           message := "Async \x7bname\x7d blocked for \x7bduration:.3f\x7d seconds"
           duration := ((end_time - start_time : Int) : ℚ) / (ONE_SECOND_IN_NANOSECONDS : ℚ)
           attributes := _callback_attributes self._callback }]) := by
  unfold run_handle log_slow_callbacks patched_run
  dsimp only
  constructor
  · split
    · simp_all
    · simp_all
  · intro h
    rw [if_pos h]
    rfl

/-- Witness for C2: a two-second callback against a one-second threshold
produces exactly the specified warning report. -/
theorem C2_report_iff_threshold_witness :
    (run_handle ((log_slow_callbacks HandleRun.original 1).1) 0 2000000000 false
      sampleHandle (Except.ok "r" : Except Unit String)).2 =
      [{ level := LogLevel.warn
         tags := ["slow-async"]
         message := "Async \x7bname\x7d blocked for \x7bduration:.3f\x7d seconds"
         duration := ((2000000000 - 0 : Int) : ℚ) / (ONE_SECOND_IN_NANOSECONDS : ℚ)
         attributes := _callback_attributes sampleHandle._callback }] := by
  exact (C2_report_iff_threshold 1 0 2000000000 sampleHandle "r").2
    (by norm_num [ONE_SECOND_IN_NANOSECONDS])

/-- C3: running the deactivation handle restores the captured original
entry point whether the body exited normally or exceptionally, and in
the restored state every invocation returns exactly the original
outcome — return value or exception — with no report, for every duration
and every callback. -/
theorem C3_deactivation_restores_baseline {ε α : Type} (slow_duration : ℚ)
    (ek : ExitKind) (start_time end_time : Int) (report_raises : Bool)
    (self : Handle) (original_result : Except ε α) :
    patch_context_exit (log_slow_callbacks HandleRun.original slow_duration).2
      (log_slow_callbacks HandleRun.original slow_duration).1 ek
      = HandleRun.original ∧
    run_handle (patch_context_exit (log_slow_callbacks HandleRun.original slow_duration).2
        (log_slow_callbacks HandleRun.original slow_duration).1 ek)
      start_time end_time report_raises self original_result
      = (original_result, []) :=
  ⟨rfl, rfl⟩

/-- C4 counterexample: activating the request-pipeline interceptor a
second time installs a second wrapper layer (the patch points are
re-patched, not installed at most once), and after running the second
activation's deactivation handle a matching request still produces a
report through the first activation's layer — the flag is closure-local
per activation, not a single shared process-wide boolean that makes the
installed patches inert. -/
theorem C4_counterexample :
    ((instrument_fastapi (instrument_fastapi (ModuleState.mk []) sampleCfg).1
        sampleCfg).1.layers.length = 2) ∧
    ((run_solve_stack
        (uninstrument_exit
          (instrument_fastapi (instrument_fastapi (ModuleState.mk []) sampleCfg).1
            sampleCfg).1
          (instrument_fastapi (instrument_fastapi (ModuleState.mk []) sampleCfg).1
            sampleCfg).2).layers
        (Req.http sampleHttpReq) sampleResult).2 ≠ []) := by
  constructor
  · rfl
  · decide

/-- C4 amended: every activation installs a fresh wrapper capturing the
previously installed functions, with its own closure-local flag set to
true; running that activation's deactivation handle sets only that
flag to false and leaves the patch installed; and a layer whose flag is
false is an inert pass-through to the functions it captured. -/
theorem C4_amended (st : ModuleState) (cfg : InstrumentCfg) (req : Req)
    (base : SolveResult) (layers : List PatchLayer) :
    (instrument_fastapi st cfg).1.layers
      = { cfg := cfg, instrumenting := true } :: st.layers ∧
    (uninstrument_exit (instrument_fastapi st cfg).1
        (instrument_fastapi st cfg).2).layers
      = { cfg := cfg, instrumenting := false } :: st.layers ∧
    run_solve_stack ({ cfg := cfg, instrumenting := false } :: layers) req base
      = run_solve_stack layers req base := by
  refine ⟨rfl, ?_, ?_⟩
  · simp [uninstrument_exit, instrument_fastapi, clear_flag]
  · have hskip : patched_solve_dependencies_body cfg false req
        (run_solve_stack layers req base).1
        = ((run_solve_stack layers req base).1, []) :=
      solve_body_skip cfg false req _ rfl
    simp [run_solve_stack, hskip]

/-- C5: whenever the activation flag is false, or the request belongs to
a different app, or its URL is excluded, or the mapper returns a falsy
value, the dependency stage emits zero reports and hands the resolution
outcome — values entries, errors and remaining components — back to the
framework unchanged. -/
theorem C5_optout_unchanged (cfg : InstrumentCfg) (flag : Bool) (req : Req)
    (result : SolveResult)
    (h : flag = false ∨ req.app_id ≠ cfg.app_id ∨ cfg.excluded req.url = true ∨
      (cfg.mapper_raises = false ∧
        cfg.mapper req (initial_attributes result) = none)) :
    (patched_solve_dependencies_body cfg flag req result).2 = [] ∧
    (patched_solve_dependencies_body cfg flag req result).1.values.entries
      = result.values.entries ∧
    (patched_solve_dependencies_body cfg flag req result).1.errors = result.errors ∧
    (patched_solve_dependencies_body cfg flag req result).1.rest = result.rest := by
  have hpres := solve_body_preserves cfg flag req result
  by_cases hi : instrumenting_request cfg flag req = true
  · rcases h with h | h | h | ⟨hm, hmap⟩
    · simp [instrumenting_request, h] at hi
    · simp [instrumenting_request] at hi
      exact absurd hi.1.2 h
    · simp [instrumenting_request] at hi
      exact absurd h (by simp [hi.2])
    · refine ⟨?_, hpres⟩
      unfold patched_solve_dependencies_body
      simp [hi, hm, hmap]
  · rw [solve_body_skip cfg flag req result (by simpa using hi)]
    exact ⟨rfl, rfl, rfl, rfl⟩

/-- Witness for C5: a request whose mapper opts out produces no report. -/
theorem C5_optout_unchanged_witness :
    (patched_solve_dependencies_body optoutCfg true (Req.http sampleHttpReq)
      sampleResult).2 = [] := by
  exact (C5_optout_unchanged optoutCfg true (Req.http sampleHttpReq) sampleResult
    (Or.inr (Or.inr (Or.inr ⟨rfl, rfl⟩)))).1

/-- C6 counterexample: for an instrumented HTTP request with NO matched
route, the emitted report's attributes still contain the HTTP method —
so it is false that the HTTP method is injected only for requests where
a route was actually matched. -/
theorem C6_counterexample :
    routeless_request.scope_route = none ∧
    (((patched_solve_dependencies_body sampleCfg true (Req.http routeless_request)
          sampleResult).2.head?.bind (fun rep => rep.attributes)).bind
        (fun a => get_attr a "http.method"))
      = some (AttrVal.str "GET") := by
  exact ⟨rfl, by decide⟩

/-- C6 amended: for every instrumented request that is not opted out and
hits no internal fault, exactly one `FastAPI arguments` report is
emitted; its level is `error` exactly when the mapper-modified bundle
still has truthy `errors`, else `debug`; its attributes are the mapper's
output with the injections applied after the mapper has run; the HTTP
method is injected for every HTTP request (route matched or not), while
route path, route name and operation id are injected only when a route
was matched. -/
theorem C6_amended (cfg : InstrumentCfg) (flag : Bool) (req : Req)
    (result : SolveResult) (attributes1 : List (String × AttrVal))
    (hinst : instrumenting_request cfg flag req = true)
    (hmr : cfg.mapper_raises = false) (hlr : cfg.log_raises = false)
    (hmap : cfg.mapper req (initial_attributes result) = some attributes1) :
    (patched_solve_dependencies_body cfg flag req result).2 =
      [{ level := report_level attributes1
         tags := ["fastapi"]
         message := "FastAPI arguments"
         attributes := some (inject_request_attributes req attributes1) }] ∧
    (∀ v, get_attr attributes1 "errors" = some v →
      report_level attributes1
        = (if v.py_truthy then LogLevel.error else LogLevel.debug)) ∧
    (get_attr attributes1 "errors" = none →
      report_level attributes1 = LogLevel.debug) ∧
    (∀ r, req = Req.http r →
      get_attr (inject_request_attributes req attributes1) "http.method"
        = some (AttrVal.str r.method)) ∧
    (∀ route, req.scope_route = some route →
      get_attr (inject_request_attributes req attributes1) "http.route"
          = some (AttrVal.str route.path) ∧
      get_attr (inject_request_attributes req attributes1) "fastapi.route.name"
          = some (AttrVal.str route.name) ∧
      (∀ opid, route.kind = RouteKind.api opid →
        get_attr (inject_request_attributes req attributes1) "fastapi.route.operation_id"
          = some (AttrVal.optStr opid))) ∧
    (req.scope_route = none →
      get_attr (inject_request_attributes req attributes1) "http.route"
          = get_attr attributes1 "http.route" ∧
      get_attr (inject_request_attributes req attributes1) "fastapi.route.name"
          = get_attr attributes1 "fastapi.route.name") := by
  refine ⟨?_, ?_, ?_, ?_, ?_, ?_⟩
  · unfold patched_solve_dependencies_body
    simp [hinst, hmr, hlr, hmap]
  · intro v hv
    unfold report_level
    rw [hv]
  · intro hv
    unfold report_level
    rw [hv]
  · intro r hreq
    subst hreq
    exact inject_get_method r attributes1
  · intro route hroute
    exact inject_get_route req route attributes1 hroute
  · intro hroute
    exact ⟨inject_none req attributes1 hroute "http.route" (by decide),
           inject_none req attributes1 hroute "fastapi.route.name" (by decide)⟩

/-- Witness for the amended C6: a `GET /items` request with a validation
error produces exactly one error-level report whose attributes carry the
method and the route path. -/
theorem C6_amended_witness :
    (patched_solve_dependencies_body sampleCfg true (Req.http sampleHttpReq)
        error_result).2 =
      [{ level := report_level (initial_attributes error_result)
         tags := ["fastapi"]
         message := "FastAPI arguments"
         attributes := some (inject_request_attributes (Req.http sampleHttpReq)
           (initial_attributes error_result)) }] ∧
    report_level (initial_attributes error_result) = LogLevel.error ∧
    get_attr (inject_request_attributes (Req.http sampleHttpReq)
        (initial_attributes error_result)) "http.method"
      = some (AttrVal.str "GET") ∧
    get_attr (inject_request_attributes (Req.http sampleHttpReq)
        (initial_attributes error_result)) "http.route"
      = some (AttrVal.str "/items") := by
  have h := C6_amended sampleCfg true (Req.http sampleHttpReq) error_result
    (initial_attributes error_result) rfl rfl rfl rfl
  refine ⟨h.1, ?_, ?_, ?_⟩
  · have := h.2.1 (AttrVal.errorsList ["value is not a valid integer"]) (by decide)
    rw [this]
    decide
  · exact h.2.2.2.1 sampleHttpReq rfl
  · exact (h.2.2.2.2.1 sampleRoute rfl).1

/-- C7 counterexample: on a callable wrapped twice, the code (which
follows the whole wrapper chain via `inspect.unwrap`) resolves the
innermost callable's name, while the claimed algorithm (unwrap one layer
of wrapping) would resolve the middle one — so the resolver does not
follow the described algorithm as stated. -/
theorem C7_counterexample :
    _callback_attributes doubly_wrapped
      ≠ resolve_described unwrap_one doubly_wrapped := by
  decide

/-- C7 amended: the resolver follows the described two-branch,
first-match algorithm with the plain-callable branch unwrapping the
whole wrapper chain (not one layer) to the innermost callable: for every
callback the code's result equals the described algorithm instantiated
with full unwrapping. -/
theorem C7_amended (cb : Callback) :
    _callback_attributes cb = resolve_described unwrap cb := by
  cases cb with
  | taskMethod t =>
      cases ht : t.task_coro with
      | notCoroutine =>
          simp [_callback_attributes, resolve_described, ht]
      | live frame =>
          simp [_callback_attributes, resolve_described, ht, task_source_location,
            append_function_name, get_stack_info_from_frame]
          split <;> simp_all
      | finished code =>
          simp [_callback_attributes, resolve_described, ht, task_source_location,
            append_function_name, get_code_object_info]
          split <;> simp_all
  | plain c =>
      simp only [_callback_attributes, resolve_described]
      by_cases hq : (unwrap c).data.qualname = "" <;>
        by_cases hn : (unwrap c).data.name_attr = "" <;>
          simp [hq, hn]

/-- C8: the resolver is total and always yields a non-empty name; the
safe fallback representation replaces any exception raised by repr-like
formatting with a placeholder, so a callable with no identifiers and a
raising repr still resolves to the placeholder name. -/
theorem C8_resolver_never_raises (cb : Callback) (d : CallableData) :
    (((_callback_attributes cb).name).isSome = true ∧
      0 < (((_callback_attributes cb).name).getD "").length) ∧
    (py_repr d = Except.error () → safe_repr d = "<unrepresentable object>") ∧
    (d.repr_ok = false → d.qualname = "" → d.name_attr = "" → d.has_code = none →
      (_callback_attributes (Callback.plain (Callable.base d))).name
        = some ("callback " ++ "<unrepresentable object>")) := by
  refine ⟨callback_name_nonempty cb, ?_, ?_⟩
  · intro h
    unfold safe_repr
    rw [h]
  · intro hr hq hn hc
    simp [_callback_attributes, unwrap, Callable.data, hq, hn, hc, safe_repr,
      py_repr, hr]

/-- Witness for C8: a callable with no identifiers whose repr raises
still resolves to the placeholder name. -/
theorem C8_resolver_never_raises_witness :
    py_repr bad_repr_callable = Except.error () ∧
    safe_repr bad_repr_callable = "<unrepresentable object>" ∧
    (_callback_attributes (Callback.plain (Callable.base bad_repr_callable))).name
      = some ("callback " ++ "<unrepresentable object>") := by
  refine ⟨rfl, ?_, ?_⟩
  · exact (C8_resolver_never_raises
      (Callback.plain (Callable.base bad_repr_callable)) bad_repr_callable).2.1 rfl
  · exact (C8_resolver_never_raises
      (Callback.plain (Callable.base bad_repr_callable)) bad_repr_callable).2.2
      rfl rfl rfl rfl

/-- C9: the endpoint-invocation stage opens the
`"{method} {route} endpoint function"` span exactly when the values
mapping is the instrumented bundle whose back-referenced request belongs
to the instrumented app, and otherwise calls through with no span; in
every case the original outcome — return value or exception — passes
through unchanged, and when the span is opened it is also closed before
the stage returns, on success and on exception alike. -/
theorem C9_endpoint_span (app_id : Nat) {ε α : Type} (orig : Except ε α) :
    (∀ entries, patched_run_endpoint_function app_id (ValuesDict.plain entries) orig
      = some (orig, [])) ∧
    (∀ entries r, r.app_id ≠ app_id →
      patched_run_endpoint_function app_id (ValuesDict.instrumented entries r) orig
        = some (orig, [])) ∧
    (∀ entries r route, r.app_id = app_id → r.scope_route = some route →
      patched_run_endpoint_function app_id (ValuesDict.instrumented entries r) orig
        = some (orig,
          [SpanEvent.opened (endpoint_span r.method route.path),
           SpanEvent.closed (endpoint_span r.method route.path)])) := by
  refine ⟨fun entries => rfl, ?_, ?_⟩
  · intro entries r h
    unfold patched_run_endpoint_function
    simp [h]
  · intro entries r route h hroute
    unfold patched_run_endpoint_function
    simp [h, hroute, endpoint_span]

/-- Witness for C9: a failing endpoint of the instrumented app still
gets an opened-and-closed span with its exception passed through, while
a bundle of a different app calls through with no span. -/
theorem C9_endpoint_span_witness :
    patched_run_endpoint_function 1
      (ValuesDict.instrumented [("x", PyVal.user "1")] sampleHttpReq)
      (Except.error "endpoint failed" : Except String Nat)
      = some (Except.error "endpoint failed",
        [SpanEvent.opened (endpoint_span "GET" "/items"),
         SpanEvent.closed (endpoint_span "GET" "/items")]) ∧
    patched_run_endpoint_function 2
      (ValuesDict.instrumented [("x", PyVal.user "1")] sampleHttpReq)
      (Except.ok 7 : Except String Nat) = some (Except.ok 7, []) := by
  constructor
  · exact (C9_endpoint_span 1 (Except.error "endpoint failed" : Except String Nat)).2.2
      [("x", PyVal.user "1")] sampleHttpReq sampleRoute rfl rfl
  · exact (C9_endpoint_span 2 (Except.ok 7 : Except String Nat)).2.1
      [("x", PyVal.user "1")] sampleHttpReq (by decide)

/-- C10: for a non-excluded HTTP request of the instrumented app with
the flag true, the dependency stage substitutes the instrumented bundle
(a copy with equal contents and a back-reference to the request) into
the result before consulting the mapper, so even when the mapper opts
out and zero reports are emitted the framework receives the wrapper, and
the endpoint stage still opens (and closes) the endpoint span for that
request. -/
theorem C10_wrapper_substitution {ε α : Type} (cfg : InstrumentCfg)
    (r : HttpRequest) (result : SolveResult) (route : Route) (orig : Except ε α)
    (happ : r.app_id = cfg.app_id) (hex : cfg.excluded r.url = false)
    (hmr : cfg.mapper_raises = false)
    (hmap : cfg.mapper (Req.http r) (initial_attributes result) = none)
    (hroute : r.scope_route = some route) :
    (patched_solve_dependencies_body cfg true (Req.http r) result).2 = [] ∧
    (patched_solve_dependencies_body cfg true (Req.http r) result).1.values
      = ValuesDict.instrumented result.values.entries r ∧
    patched_run_endpoint_function cfg.app_id
      (patched_solve_dependencies_body cfg true (Req.http r) result).1.values orig
      = some (orig,
        [SpanEvent.opened (endpoint_span r.method route.path),
         SpanEvent.closed (endpoint_span r.method route.path)]) := by
  have hinst : instrumenting_request cfg true (Req.http r) = true := by
    simp [instrumenting_request, Req.app_id, Req.url, happ, hex]
  have hbody : patched_solve_dependencies_body cfg true (Req.http r) result
      = ({ result with values := ValuesDict.instrumented result.values.entries r }, []) := by
    unfold patched_solve_dependencies_body
    simp [hinst, hmr, hmap]
  rw [hbody]
  refine ⟨rfl, rfl, ?_⟩
  unfold patched_run_endpoint_function
  simp [happ, hroute, endpoint_span]

/-- Witness for C10: with an opting-out mapper the framework receives
the instrumented wrapper with the original entries and no report is
emitted. -/
theorem C10_wrapper_substitution_witness :
    (patched_solve_dependencies_body optoutCfg true (Req.http sampleHttpReq)
      sampleResult).2 = [] ∧
    (patched_solve_dependencies_body optoutCfg true (Req.http sampleHttpReq)
      sampleResult).1.values
      = ValuesDict.instrumented sampleResult.values.entries sampleHttpReq := by
  have h := C10_wrapper_substitution optoutCfg sampleHttpReq sampleResult
    sampleRoute (Except.ok 0 : Except Unit Nat) rfl rfl rfl rfl rfl
  exact ⟨h.1, h.2.1⟩
